import Mathlib

/-!
Shallow embedding of the phosphonet.ca scraper (src/phosphonet.py).

The HTTP layer and the BeautifulSoup HTML extraction are external
collaborators; functions here take their outputs as explicit inputs:
the HTTP status code of a response, the list of text contents of the
matching table cells (for the search page), and the list of
whitespace-stripped text nodes of the page body (for the prediction
page).  Python exceptions are modelled with Except; each constructor of
PipeErr records which Python exception site it stands for.
-/

set_option maxRecDepth 40000

deriving instance DecidableEq for Except

namespace Phosphonet

/-- Constant num_kinases_per_phos from the source: kinases reported per site. -/
def num_kinases_per_phos : Nat := 50

/-- Constant phos_column_values from the source: descriptor fields per kinase. -/
def phos_column_values : Nat := 7

/-- Constant kinase_begin_string from the source: the marker token that the
prediction-page token stream is searched for. -/
def kinase_begin_string : String := "Kinase 1:"

/-- Python exceptions raised by the pipeline, one constructor per raise site. -/
inductive PipeErr where
  /-- UnboundLocalError at the end of get_phospho_sites: `phospho_sites` is
  only assigned inside the `status == 200` branch. -/
  | unboundLocal
  /-- ValueError from `strings.index(kinase_begin_string)` when the marker
  token is absent from the stream. -/
  | markerNotFound
  /-- ValueError from `np.reshape` when the sliced token list does not have
  exactly 50*7 elements; carries the actual size. -/
  | reshapeError (n : Nat)
  /-- KeyError from `df.drop([0,4,5], axis=1)` when the frame has fewer than
  6 columns (in particular the empty frame built from `[]`). -/
  | keyErrorDropCols
  /-- ValueError from assigning the 5 new column names when the frame does
  not have exactly 5 columns after the drop and reset_index. -/
  | columnsMismatch
  /-- IndexError from `phospho_site[0]` when the site label is empty. -/
  | indexErrorSiteChar
  /-- ValueError from `astype('int32')` on a non-numeric string; carries it. -/
  | intCastError (s : String)
  /-- KeyError from `phos_df['site']` when typecast_phos_df receives the
  fresh empty DataFrame (a protein with zero discovered sites). -/
  | keyErrorSiteCol
deriving Repr, DecidableEq

/-- Model of Python `list.index` restricted to strings: position of the first
occurrence, or none (Python raises ValueError, mapped to an error by the
caller). -/
def listIndex (s : String) : List String → Option Nat
  | [] => none
  | a :: l => if a = s then some 0 else (listIndex s l).map (· + 1)

/-- Row-major chunking of a flat token list into `r` rows of `c` tokens,
mirroring `np.reshape((r, c), order='C')` on a list of length `r * c`. -/
def chunkRows (c : Nat) : Nat → List String → List (List String)
  | 0, _ => []
  | r + 1, xs => xs.take c :: chunkRows c r (xs.drop c)

/-- Model of `np.array(...).reshape((r, c), order='C')`: succeeds exactly
when the flat list has `r * c` elements, otherwise ValueError. -/
def reshape (r c : Nat) (xs : List String) : Except PipeErr (List (List String)) :=
  if xs.length = r * c then .ok (chunkRows c r xs) else .error (.reshapeError xs.length)

/-- Model of get_phospho_sites: `siteCells` is the list of text contents of
the `td.pSiteNameCol` elements extracted by BeautifulSoup.  On status 200 it
returns them; otherwise the function falls through to
`return phospho_sites` with the local never assigned (UnboundLocalError). -/
def get_phospho_sites (status : Nat) (siteCells : List String) :
    Except PipeErr (List String) :=
  if status = 200 then .ok siteCells else .error .unboundLocal

/-- Model of get_kinases: `strings` is `list(soup.html.stripped_strings)`.
On non-200 status the initial `string_array = []` is returned.  Otherwise the
marker is located with `strings.index` (ValueError if absent) and the slice
`strings[start_index : num_kinases_per_phos * phos_column_values + start_index]`
(= drop start_index, take 50*7) is reshaped to 50 rows of 7. -/
def get_kinases (status : Nat) (strings : List String) :
    Except PipeErr (List (List String)) :=
  if status = 200 then
    match listIndex kinase_begin_string strings with
    | none => .error .markerNotFound
    | some start_index =>
        reshape num_kinases_per_phos phos_column_values
          ((strings.drop start_index).take (num_kinases_per_phos * phos_column_values))
  else
    .ok []

/-- Model of Python string indexing `s[0]`: the one-character prefix (the
caller checks emptiness separately, as Python raises IndexError there). -/
def pyHead (s : String) : String := ⟨s.data.take 1⟩

/-- Model of Python string slicing `s[1:]`. -/
def pyTail (s : String) : String := ⟨s.data.drop 1⟩

/-- Accumulating decimal-digit parser over the characters of a string;
`none` accumulator means no digit has been seen yet. -/
def parseDigits : List Char → Option Nat → Option Nat
  | [], acc => acc
  | c :: cs, acc =>
      let n := c.toNat
      if 48 ≤ n then
        if n ≤ 57 then parseDigits cs (some (acc.getD 0 * 10 + (n - 48))) else none
      else none

/-- Model of the integer-literal parse performed by `int()` under
`astype('int32')`: an optional leading minus sign followed by at least one
decimal digit. -/
def parseIntLit (s : String) : Option Int :=
  match s.data with
  | '-' :: rest => (parseDigits rest none).map (fun n => -(n : Int))
  | l => (parseDigits l none).map (fun n => (n : Int))

/-- A cell of the DataFrame: still raw scraped text, or an integer after the
`astype('int32')` pass. -/
inductive CellVal where
  | str (s : String)
  | int (z : Int)
deriving Repr, DecidableEq, Inhabited

/-- One row of the per-protein DataFrame, with the columns in the order
substrate, aa, site, kinase_rank, kinase_name, kinase_id, kinexus_score,
kinexus_score_v2 built by kinase_array_to_df. -/
structure KinaseRecord where
  substrate : String
  aa : String
  site : CellVal
  kinase_rank : Nat
  kinase_name : String
  kinase_id : String
  kinexus_score : CellVal
  kinexus_score_v2 : CellVal
deriving Repr, DecidableEq, Inhabited

/-- One output row of kinase_array_to_df for 0-indexed block row `i`: after
`df.drop([0,4,5], axis=1)` the surviving source columns are 1, 2, 3 and 6,
renamed to kinase_name, kinase_id, kinexus_score, kinexus_score_v2; the
reset index plus one is the rank; site and aa come from splitting the
phosphosite label. -/
def mkRecord (uid ps : String) (i : Nat) (row : List String) : KinaseRecord :=
  { substrate := uid
  , aa := pyHead ps
  , site := .str (pyTail ps)
  , kinase_rank := i + 1
  , kinase_name := row.getD 1 ""
  , kinase_id := row.getD 2 ""
  , kinexus_score := .str (row.getD 3 "")
  , kinexus_score_v2 := .str (row.getD 6 "") }

/-- Rows of the DataFrame built from the block, positional index starting at
`k` (the orchestrator always starts at 0; the parameter makes induction go
through). -/
def rowsToRecords (uid ps : String) : Nat → List (List String) → List KinaseRecord
  | _, [] => []
  | i, row :: rest => mkRecord uid ps i row :: rowsToRecords uid ps (i + 1) rest

/-- Model of kinase_array_to_df.  `pd.DataFrame(arr)` has one column per
entry of the (rectangular) rows; `df.drop([0,4,5], axis=1)` raises KeyError
unless all of the labels 0, 4, 5 exist, i.e. at least 6 columns; assigning
the 5 new column names raises ValueError unless exactly 7 original columns
(drop leaves 4, reset_index adds 1); `phospho_site[0]` raises IndexError on
an empty label.  Otherwise one KinaseRecord per row, in order. -/
def kinase_array_to_df (arr : List (List String)) (uid ps : String) :
    Except PipeErr (List KinaseRecord) :=
  let ncols := (arr.headD []).length
  if ncols < 6 then .error .keyErrorDropCols
  else if ncols ≠ 7 then .error .columnsMismatch
  else if ps.data.isEmpty then .error .indexErrorSiteChar
  else .ok (rowsToRecords uid ps 0 arr)

/-- Wrap an integer into the signed 32-bit range, as numpy's int32 cast does. -/
def int32wrap (z : Int) : Int := (z + 2 ^ 31) % 2 ^ 32 - 2 ^ 31

/-- Model of one cell under `astype(dtype='int32')`: a string cell is parsed
as an integer literal (ValueError if it is not one), an integer cell is
re-cast, which wraps into range (a no-op on values already in range). -/
def astype_int32 : CellVal → Except PipeErr CellVal
  | .str s =>
      match parseIntLit s with
      | some z => .ok (.int (int32wrap z))
      | none => .error (.intCastError s)
  | .int z => .ok (.int (int32wrap z))

/-- Character map underlying `.str.replace(",", ";")`. -/
def replChar (c : Char) : Char := if c = ',' then ';' else c

/-- Model of `.str.replace(",", ";")` on one cell: every comma becomes a
semicolon. -/
def replaceCommas (s : String) : String := ⟨s.data.map replChar⟩

/-- The typecast pass of typecast_phos_df restricted to one row: cast site,
kinexus_score and kinexus_score_v2 to int32 and clean kinase_name.  (The
source mutates whole columns in order site, kinase_name, kinexus_score,
kinexus_score_v2; per-row application succeeds on exactly the same frames
and with the same resulting values.) -/
def typecastRecord (r : KinaseRecord) : Except PipeErr KinaseRecord :=
  match astype_int32 r.site, astype_int32 r.kinexus_score,
        astype_int32 r.kinexus_score_v2 with
  | .ok site, .ok ks, .ok kv =>
      .ok { r with
              site := site,
              kinase_name := replaceCommas r.kinase_name,
              kinexus_score := ks,
              kinexus_score_v2 := kv }
  | .error e, _, _ => .error e
  | .ok _, .error e, _ => .error e
  | .ok _, .ok _, .error e => .error e

/-- Apply the typecast pass to every row, first failure wins. -/
def castRows : List KinaseRecord → Except PipeErr (List KinaseRecord)
  | [] => .ok []
  | r :: rest =>
      match typecastRecord r, castRows rest with
      | .ok r2, .ok rest2 => .ok (r2 :: rest2)
      | .error e, _ => .error e
      | .ok _, .error e => .error e

/-- Model of typecast_phos_df.  The accumulated frame is `none` when it is
still the fresh `pd.DataFrame()` (no sites were iterated), in which case
`phos_df['site']` raises KeyError; otherwise the casts run row by row. -/
def typecast_phos_df : Option (List KinaseRecord) → Except PipeErr (List KinaseRecord)
  | none => .error .keyErrorSiteCol
  | some rows => castRows rows

/-- The prediction page for one site, as the core sees it: HTTP status and
the stripped text-node stream of the body. -/
structure SitePage where
  status : Nat
  strings : List String

/-- Everything the external web site supplies for one protein: search-page
status, the text of the matching site cells, and the prediction page for
each site label. -/
structure ProteinEnv where
  searchStatus : Nat
  siteCells : List String
  predPage : String → SitePage

/-- Model of the accumulation step: the fresh empty frame is replaced by the
first site's frame, later frames are concatenated (`pd.concat`). -/
def accumulate (acc : Option (List KinaseRecord)) (kdf : List KinaseRecord) :
    Option (List KinaseRecord) :=
  match acc with
  | none => some kdf
  | some t => some (t ++ kdf)

/-- The inner loop of the main program over the discovered sites: fetch the
kinase block, build its frame, accumulate.  The sleep calls are pure delays
with no effect on the data and are not modelled. -/
def process_sites (env : ProteinEnv) (uid : String) :
    Option (List KinaseRecord) → List String → Except PipeErr (Option (List KinaseRecord))
  | acc, [] => .ok acc
  | acc, site :: rest =>
      match get_kinases (env.predPage site).status (env.predPage site).strings with
      | .error e => .error e
      | .ok kinases =>
          match kinase_array_to_df kinases uid site with
          | .error e => .error e
          | .ok kdf => process_sites env uid (accumulate acc kdf) rest

/-- One iteration of the main loop: discover the sites, process them all,
then typecast the accumulated frame.  The result is the table written to
the protein's csv file. -/
def process_protein (env : ProteinEnv) (uid : String) :
    Except PipeErr (List KinaseRecord) :=
  match get_phospho_sites env.searchStatus env.siteCells with
  | .error e => .error e
  | .ok phospho_sites =>
      match process_sites env uid none phospho_sites with
      | .error e => .error e
      | .ok acc => typecast_phos_df acc

/-- The whole run: the main loop over the requested ids has no exception
handler, so the first uncaught error stops the process; the first component
collects the (id, table) pairs actually written out before that point, the
second the terminating error, if any. -/
def run_main (env : String → ProteinEnv) :
    List String → List (String × List KinaseRecord) × Option PipeErr
  | [] => ([], none)
  | uid :: rest =>
      match process_protein (env uid) uid with
      | .error e => ([], some e)
      | .ok t =>
          let (outs, err) := run_main env rest
          ((uid, t) :: outs, err)

/-- Boolean success test for Except results. -/
def exceptIsOk : Except PipeErr α → Bool
  | .ok _ => true
  | .error _ => false

/-- Boolean test that a string is free of commas. -/
def noComma (s : String) : Bool := s.data.all (fun c => ! (c == ','))

/-! Helper lemmas about the embedding. -/

theorem listIndex_headD (s : String) :
    ∀ (l : List String) (i : Nat), listIndex s l = some i → (l.drop i).headD "" = s := by
  intro l
  induction l with
  | nil => intro i h; simp [listIndex] at h
  | cons a t ih =>
      intro i h
      by_cases ha : a = s
      · simp [listIndex, ha] at h
        subst h
        simpa using ha
      · simp [listIndex, ha] at h
        obtain ⟨j, hj, hij⟩ := h
        subst hij
        simpa using ih j hj

theorem headD_take (l : List String) (n : Nat) (d : String) (h : l ≠ []) :
    (l.take (n + 1)).headD d = l.headD d := by
  cases l with
  | nil => exact absurd rfl h
  | cons a t => simp

theorem slice_length_full (l : List String) (i : Nat) (h : 350 ≤ l.length - i) :
    ((l.drop i).take 350).length = 350 := by
  simp [List.length_take, List.length_drop]
  omega

theorem slice_length_short (l : List String) (i : Nat) (h : l.length - i < 350) :
    ((l.drop i).take 350).length = l.length - i := by
  simp [List.length_take, List.length_drop]
  omega

theorem get_kinases_200_found (strs : List String) (i : Nat)
    (hfind : listIndex kinase_begin_string strs = some i) :
    get_kinases 200 strs = reshape 50 7 ((strs.drop i).take 350) := by
  have h57 : num_kinases_per_phos * phos_column_values = 350 := rfl
  simp only [get_kinases, if_pos, hfind, h57]
  rfl

/-! Claim theorems. -/

/-- Concrete prediction-page token stream for claim C1: the marker sits at
position 1 and exactly 350 tokens follow it. -/
def C1stream : List String := "x" :: kinase_begin_string :: "A" :: List.replicate 349 "B"

/-- C1 counterexample: on C1stream, get_kinases does not return the reshape
of the 350 tokens immediately after the marker (as the claim states); it
returns the reshape of the 350 tokens starting at the marker itself, so the
marker is row 0 column 0 of the block. -/
theorem C1_counterexample :
    get_kinases 200 C1stream ≠ .ok (chunkRows 7 50 ((C1stream.drop 2).take 350)) ∧
    get_kinases 200 C1stream = .ok (chunkRows 7 50 ((C1stream.drop 1).take 350)) := by
  constructor
  · decide
  · rfl

/-- C1 (amended): whenever the stream's whitespace-stripped tokens contain
the marker at first position i with at least 350 tokens from the marker on,
get_kinases reshapes the 350 tokens starting at the marker's own position
row-major into the 50-row 7-column block, so the marker itself is row 0
column 0 of the block. -/
theorem C1_theorem (strs : List String) (i : Nat)
    (hfind : listIndex kinase_begin_string strs = some i)
    (hlen : 350 ≤ strs.length - i) :
    get_kinases 200 strs = .ok (chunkRows 7 50 ((strs.drop i).take 350)) ∧
    ((strs.drop i).take 350).headD "" = kinase_begin_string := by
  have hfull := slice_length_full strs i hlen
  constructor
  · rw [get_kinases_200_found strs i hfind, reshape, if_pos]
    rw [hfull]
  · have hne : strs.drop i ≠ [] := by
      intro hd
      rw [hd] at hfull
      simp at hfull
    rw [show (350 : Nat) = 349 + 1 from rfl, headD_take _ _ _ hne]
    exact listIndex_headD kinase_begin_string strs i hfind

/-- Concrete stream for the C1 witness: marker at position 1, followed by
exactly 349 further tokens, 350 counting the marker itself. -/
def C1wstream : List String := "x" :: kinase_begin_string :: List.replicate 349 "1"

/-- C1 witness: the amended theorem applied to C1wstream. -/
theorem C1_witness :
    get_kinases 200 C1wstream = .ok (chunkRows 7 50 ((C1wstream.drop 1).take 350)) ∧
    ((C1wstream.drop 1).take 350).headD "" = kinase_begin_string :=
  C1_theorem C1wstream 1 (by decide) (by decide)

/-- Concrete stream for claim C5: the marker is present and exactly 349
tokens (fewer than 350) follow it. -/
def C5stream : List String := kinase_begin_string :: List.replicate 349 "1"

/-- C5 counterexample: C5stream has the marker with only 349 tokens after
it, yet get_kinases succeeds (the marker itself completes the 350-token
slice), contradicting the claim that any stream with fewer than 350 tokens
after the marker makes get_kinases raise. -/
theorem C5_counterexample :
    listIndex kinase_begin_string C5stream = some 0 ∧
    (C5stream.drop 1).length = 349 ∧
    exceptIsOk (get_kinases 200 C5stream) = true := by
  refine ⟨by decide, by decide, ?_⟩
  decide

/-- C5 (amended): whenever the stream contains the marker at first position
i but fewer than 350 tokens remain counting the marker itself (that is, at
most 348 tokens follow the marker), get_kinases raises the malformed-block
(reshape) error carrying the short slice's actual size; it never truncates
the block or pads it. -/
theorem C5_theorem (strs : List String) (i : Nat)
    (hfind : listIndex kinase_begin_string strs = some i)
    (hshort : strs.length - i < 350) :
    get_kinases 200 strs = .error (.reshapeError (strs.length - i)) := by
  rw [get_kinases_200_found strs i hfind, reshape, if_neg, slice_length_short strs i hshort]
  rw [slice_length_short strs i hshort]
  omega

/-- C5 witness: the amended theorem applied to a stream holding only the
marker token, a slice of size 1. -/
theorem C5_witness :
    get_kinases 200 [kinase_begin_string] = .error (.reshapeError 1) :=
  C5_theorem [kinase_begin_string] 0 (by decide) (by decide)

theorem rowsToRecords_length (uid ps : String) :
    ∀ (bl : List (List String)) (k : Nat), (rowsToRecords uid ps k bl).length = bl.length := by
  intro bl
  induction bl with
  | nil => intro k; simp [rowsToRecords]
  | cons r rest ih => intro k; simp [rowsToRecords, ih]

theorem rowsToRecords_getD (uid ps : String) :
    ∀ (bl : List (List String)) (k i : Nat), i < bl.length →
      (rowsToRecords uid ps k bl).getD i default = mkRecord uid ps (k + i) (bl.getD i []) := by
  intro bl
  induction bl with
  | nil => intro k i h; simp at h
  | cons r rest ih =>
      intro k i h
      cases i with
      | zero => simp [rowsToRecords]
      | succ j =>
          rw [rowsToRecords, List.getD_cons_succ, List.getD_cons_succ,
            ih (k + 1) j (by simpa using h)]
          congr 1
          omega

theorem rowsToRecords_ranks (uid ps : String) :
    ∀ (bl : List (List String)) (k : Nat),
      (rowsToRecords uid ps k bl).map (fun r => r.kinase_rank)
        = (List.range bl.length).map (fun i => k + i + 1) := by
  intro bl
  induction bl with
  | nil => intro k; simp [rowsToRecords]
  | cons r rest ih =>
      intro k
      have hf : (fun i => (k + 1) + i + 1) = ((fun i => k + i + 1) ∘ Nat.succ) := by
        funext i
        simp [Function.comp]
        omega
      rw [rowsToRecords, List.map_cons, ih (k + 1), List.length_cons,
        List.range_succ_eq_map, List.map_cons, List.map_map, hf]
      rfl

/-- Concrete 50-row block for claim C2 whose seven columns are the distinct
tokens c0 .. c6. -/
def C2block : List (List String) :=
  List.replicate 50 ["c0", "c1", "c2", "c3", "c4", "c5", "c6"]

/-- C2 counterexample: on a block whose columns are the tokens c0 .. c6,
kinase_array_to_df maps kinexus_score_v2 to column c6, not to column c4 as
the claim states (the source drops columns 0, 4 and 5, not 0, 5 and 6). -/
theorem C2_counterexample :
    (kinase_array_to_df C2block "P1" "S45").map
        (fun rs => rs.head?.map (fun r => r.kinexus_score_v2))
      = .ok (some (.str "c6")) ∧
    CellVal.str "c6" ≠ CellVal.str "c4" := by
  constructor
  · rfl
  · decide

/-- C2 (amended): for every 50-row block whose rows have 7 columns, a
protein id and a non-empty site label, kinase_array_to_df produces exactly
50 records with kinase_rank equal to row index plus one (the values 1..50
in ascending order), kinase_name = column 1, kinase_id = column 2,
kinexus_score = column 3 and kinexus_score_v2 = column 6, discarding
columns 0, 4 and 5, every record carrying substrate = the protein id,
aa = the site label's first character and site = its remaining substring. -/
theorem C2_theorem (block : List (List String)) (uid ps : String)
    (hlen : block.length = 50)
    (hcols : (block.headD []).length = 7)
    (hps : ps.data.isEmpty = false) :
    ∃ rs, kinase_array_to_df block uid ps = .ok rs ∧
      rs.length = 50 ∧
      rs.map (fun r => r.kinase_rank) = (List.range 50).map (fun i => i + 1) ∧
      ∀ i, i < 50 →
        rs.getD i default =
          { substrate := uid
          , aa := pyHead ps
          , site := CellVal.str (pyTail ps)
          , kinase_rank := i + 1
          , kinase_name := (block.getD i []).getD 1 ""
          , kinase_id := (block.getD i []).getD 2 ""
          , kinexus_score := CellVal.str ((block.getD i []).getD 3 "")
          , kinexus_score_v2 := CellVal.str ((block.getD i []).getD 6 "") } := by
  refine ⟨rowsToRecords uid ps 0 block, ?_, ?_, ?_, ?_⟩
  · have hc : (block.head?.getD []).length = 7 := by simpa using hcols
    simp [kinase_array_to_df, hc, hps]
  · rw [rowsToRecords_length, hlen]
  · rw [rowsToRecords_ranks, hlen]
    simp
  · intro i hi
    rw [rowsToRecords_getD uid ps block 0 i (by omega)]
    simp [mkRecord]

/-- C2 witness: the amended theorem applied to the concrete block C2block. -/
theorem C2_witness :
    ∃ rs, kinase_array_to_df C2block "P1" "S45" = .ok rs ∧
      rs.length = 50 ∧
      rs.map (fun r => r.kinase_rank) = (List.range 50).map (fun i => i + 1) ∧
      ∀ i, i < 50 →
        rs.getD i default =
          { substrate := "P1"
          , aa := pyHead "S45"
          , site := CellVal.str (pyTail "S45")
          , kinase_rank := i + 1
          , kinase_name := (C2block.getD i []).getD 1 ""
          , kinase_id := (C2block.getD i []).getD 2 ""
          , kinexus_score := CellVal.str ((C2block.getD i []).getD 3 "")
          , kinexus_score_v2 := CellVal.str ((C2block.getD i []).getD 6 "") } :=
  C2_theorem C2block "P1" "S45" (by decide) (by decide) (by decide)

/-- C3: on a non-success search-page status, get_phospho_sites does not
return the empty list the claim describes; the local `phospho_sites` is
never assigned and the function raises UnboundLocalError, which nothing in
the main loop catches. -/
theorem C3_code_bug :
    get_phospho_sites 404 ["S45"] = .error PipeErr.unboundLocal ∧
    (Except.error PipeErr.unboundLocal : Except PipeErr (List String)) ≠ .ok [] := by
  constructor
  · rfl
  · decide

/-- Concrete per-protein environment for claim C4: the search page succeeds
with one site, but every prediction page answers with status 404. -/
def C4env : ProteinEnv :=
  { searchStatus := 200
  , siteCells := ["S45"]
  , predPage := fun _ => { status := 404, strings := [] } }

/-- C4: get_kinases does return the absent value (the empty array) on a
non-success prediction-page status, but the orchestrator does not skip the
site: it hands the empty array to kinase_array_to_df, whose column drop
raises KeyError, aborting the run instead of contributing zero rows and
continuing. -/
theorem C4_code_bug :
    get_kinases 404 [] = .ok [] ∧
    process_protein C4env "P1" = .error PipeErr.keyErrorDropCols := by
  constructor
  · rfl
  · rfl

/-- Prediction page used for the healthy protein in claim C6: a full
50-by-7 token block starting at the marker, all numeric fields parseable. -/
def C6goodPage : SitePage :=
  { status := 200, strings := kinase_begin_string :: List.replicate 349 "1" }

/-- Environment for claim C6: protein A's prediction page lacks the marker
(layout-contract violation), protein B's pages are fully well-formed. -/
def C6env : String → ProteinEnv := fun uid =>
  if uid = "A" then
    { searchStatus := 200
    , siteCells := ["S45"]
    , predPage := fun _ => { status := 200, strings := ["x"] } }
  else
    { searchStatus := 200
    , siteCells := ["S45"]
    , predPage := fun _ => C6goodPage }

/-- C6 counterexample: protein B alone processes successfully, yet in the
run over A then B the marker-not-found failure on A terminates the whole
run and B produces no output, contradicting the claim that failure on one
protein never aborts the run for the others. -/
theorem C6_counterexample :
    exceptIsOk (process_protein (C6env "B") "B") = true ∧
    run_main C6env ["A", "B"] = ([], some PipeErr.markerNotFound) := by
  constructor
  · decide
  · decide

/-- C6 (amended): a non-recoverable failure while processing one protein
terminates the entire run: no table is emitted for the failing protein and
none of the remaining requested proteins are processed at all. -/
theorem C6_theorem (env : String → ProteinEnv) (uid : String) (rest : List String)
    (e : PipeErr) (h : process_protein (env uid) uid = .error e) :
    run_main env (uid :: rest) = ([], some e) := by
  rw [run_main, h]

/-- C6 witness: the amended theorem applied to the concrete run over A then
B in which A fails with marker-not-found. -/
theorem C6_witness :
    run_main C6env ["A", "B"] = ([], some PipeErr.markerNotFound) :=
  C6_theorem C6env "A" ["B"] PipeErr.markerNotFound (by decide)

/-- Environment for claim C7: the search page succeeds but carries zero
matching site cells. -/
def C7env : ProteinEnv :=
  { searchStatus := 200
  , siteCells := []
  , predPage := fun _ => { status := 200, strings := [] } }

/-- C7 counterexample: with a successful search page holding zero matching
elements, get_phospho_sites does return the empty sequence, but the
orchestrator does not hand over a header-only table: typecast_phos_df hits
the still-empty frame and raises KeyError, so no output is produced. -/
theorem C7_counterexample :
    get_phospho_sites C7env.searchStatus C7env.siteCells = .ok [] ∧
    process_protein C7env "P1" = .error PipeErr.keyErrorSiteCol := by
  constructor
  · rfl
  · rfl

/-- C7 (amended): for every protein whose search page succeeds with zero
matching elements, the discovered site list is empty and processing of that
protein fails with the KeyError raised by typecast_phos_df on the fresh
empty frame; no output table is handed over for it. -/
theorem C7_theorem (env : ProteinEnv) (uid : String)
    (hstatus : env.searchStatus = 200) (hcells : env.siteCells = []) :
    process_protein env uid = .error PipeErr.keyErrorSiteCol := by
  rw [process_protein, get_phospho_sites, hstatus, hcells]
  rfl

/-- C7 witness: the amended theorem applied to the concrete environment. -/
theorem C7_witness : process_protein C7env "P2" = .error PipeErr.keyErrorSiteCol :=
  C7_theorem C7env "P2" rfl rfl

theorem int32wrap_idem (z : Int) : int32wrap (int32wrap z) = int32wrap z := by
  unfold int32wrap
  rw [Int.sub_add_cancel, Int.emod_emod_of_dvd _ dvd_rfl]

theorem astype_int32_idem (v w : CellVal) (h : astype_int32 v = .ok w) :
    astype_int32 w = .ok w := by
  cases v with
  | str s =>
      simp only [astype_int32] at h
      cases hp : parseIntLit s with
      | none => rw [hp] at h; simp at h
      | some z =>
          rw [hp] at h
          simp only [Except.ok.injEq] at h
          subst h
          simp only [astype_int32]
          rw [int32wrap_idem]
  | int z =>
      simp only [astype_int32] at h
      simp only [Except.ok.injEq] at h
      subst h
      simp only [astype_int32]
      rw [int32wrap_idem]

theorem replChar_ne_comma (c : Char) : (replChar c == ',') = false := by
  by_cases h : c = ','
  · subst h; decide
  · simp [replChar, h]

theorem replChar_idem (c : Char) : replChar (replChar c) = replChar c := by
  unfold replChar
  by_cases h : c = ','
  · simp [h]
  · simp [h]

theorem replaceCommas_idem (s : String) :
    replaceCommas (replaceCommas s) = replaceCommas s := by
  show String.mk ((s.data.map replChar).map replChar) = String.mk (s.data.map replChar)
  rw [List.map_map]
  exact congrArg String.mk (List.map_congr_left (fun c _ => replChar_idem c))

theorem typecastRecord_idem (r r2 : KinaseRecord) (h : typecastRecord r = .ok r2) :
    typecastRecord r2 = .ok r2 := by
  obtain ⟨sub, aa0, site0, rank, name, kid, ks0, kv0⟩ := r
  unfold typecastRecord at h ⊢
  cases hs : astype_int32 site0 with
  | error e => rw [hs] at h; simp at h
  | ok site =>
    cases hk : astype_int32 ks0 with
    | error e => rw [hs, hk] at h; simp at h
    | ok ks =>
      cases hv : astype_int32 kv0 with
      | error e => rw [hs, hk, hv] at h; simp at h
      | ok kv =>
          rw [hs, hk, hv] at h
          simp only [Except.ok.injEq] at h
          subst h
          simp only
          rw [astype_int32_idem _ _ hs, astype_int32_idem _ _ hk,
            astype_int32_idem _ _ hv]
          simp [replaceCommas_idem]

theorem typecastRecord_fields (r r2 : KinaseRecord) (h : typecastRecord r = .ok r2) :
    r2.substrate = r.substrate ∧ r2.aa = r.aa ∧ r2.kinase_rank = r.kinase_rank ∧
    r2.kinase_id = r.kinase_id ∧ r2.kinase_name = replaceCommas r.kinase_name := by
  unfold typecastRecord at h
  cases hs : astype_int32 r.site with
  | error e => rw [hs] at h; simp at h
  | ok site =>
    cases hk : astype_int32 r.kinexus_score with
    | error e => rw [hs, hk] at h; simp at h
    | ok ks =>
      cases hv : astype_int32 r.kinexus_score_v2 with
      | error e => rw [hs, hk, hv] at h; simp at h
      | ok kv =>
          rw [hs, hk, hv] at h
          simp only [Except.ok.injEq] at h
          subst h
          exact ⟨rfl, rfl, rfl, rfl, rfl⟩

theorem castRows_idem : ∀ (l r : List KinaseRecord),
    castRows l = .ok r → castRows r = .ok r := by
  intro l
  induction l with
  | nil =>
      intro r h
      unfold castRows at h
      simp only [Except.ok.injEq] at h
      subst h
      rfl
  | cons a t ih =>
      intro r h
      unfold castRows at h
      cases ha : typecastRecord a with
      | error e => rw [ha] at h; simp at h
      | ok b =>
          cases ht : castRows t with
          | error e => rw [ha, ht] at h; simp at h
          | ok bs =>
              rw [ha, ht] at h
              simp only [Except.ok.injEq] at h
              subst h
              unfold castRows
              rw [typecastRecord_idem a b ha, ih bs ht]

theorem castRows_mem : ∀ (l r : List KinaseRecord), castRows l = .ok r →
    ∀ b ∈ r, ∃ a, a ∈ l ∧ typecastRecord a = .ok b := by
  intro l
  induction l with
  | nil =>
      intro r h b hb
      unfold castRows at h
      simp only [Except.ok.injEq] at h
      subst h
      simp at hb
  | cons a t ih =>
      intro r h b hb
      unfold castRows at h
      cases ha : typecastRecord a with
      | error e => rw [ha] at h; simp at h
      | ok b0 =>
          cases ht : castRows t with
          | error e => rw [ha, ht] at h; simp at h
          | ok bs =>
              rw [ha, ht] at h
              simp only [Except.ok.injEq] at h
              subst h
              rcases List.mem_cons.mp hb with hb0 | hbs
              · exact ⟨a, List.mem_cons_self a t, by rw [hb0]; exact ha⟩
              · obtain ⟨a2, ha2, hta⟩ := ih bs ht b hbs
                exact ⟨a2, List.mem_cons_of_mem a ha2, hta⟩

theorem castRows_frame : ∀ (l r : List KinaseRecord), castRows l = .ok r →
    r.length = l.length ∧
    ∀ i, (r.getD i default).substrate = (l.getD i default).substrate ∧
         (r.getD i default).aa = (l.getD i default).aa ∧
         (r.getD i default).kinase_rank = (l.getD i default).kinase_rank ∧
         (r.getD i default).kinase_id = (l.getD i default).kinase_id := by
  intro l
  induction l with
  | nil =>
      intro r h
      unfold castRows at h
      simp only [Except.ok.injEq] at h
      subst h
      exact ⟨rfl, fun i => ⟨rfl, rfl, rfl, rfl⟩⟩
  | cons a t ih =>
      intro r h
      unfold castRows at h
      cases ha : typecastRecord a with
      | error e => rw [ha] at h; simp at h
      | ok b =>
          cases ht : castRows t with
          | error e => rw [ha, ht] at h; simp at h
          | ok bs =>
              rw [ha, ht] at h
              simp only [Except.ok.injEq] at h
              subst h
              obtain ⟨hlen, hpt⟩ := ih bs ht
              have hf := typecastRecord_fields a b ha
              refine ⟨by simp [hlen], ?_⟩
              intro i
              cases i with
              | zero =>
                  simp only [List.getD_cons_zero]
                  exact ⟨hf.1, hf.2.1, hf.2.2.1, hf.2.2.2.1⟩
              | succ j =>
                  simpa only [List.getD_cons_succ] using hpt j

/-- C8: typecast_phos_df is idempotent; on any table a first application
accepts, a second application returns exactly the same table. -/
theorem C8_theorem (tbl rs : List KinaseRecord)
    (h : typecast_phos_df (some tbl) = .ok rs) :
    typecast_phos_df (some rs) = .ok rs :=
  castRows_idem tbl rs h

/-- Concrete raw table for the C8 witness. -/
def C8tbl : List KinaseRecord :=
  [{ substrate := "P1", aa := "S", site := .str "45", kinase_rank := 1,
     kinase_name := "Kin,aseA", kinase_id := "K1",
     kinexus_score := .str "950", kinexus_score_v2 := .str "-940" }]

/-- The C8 witness table after one typecast pass. -/
def C8cast : List KinaseRecord :=
  [{ substrate := "P1", aa := "S", site := .int 45, kinase_rank := 1,
     kinase_name := "Kin;aseA", kinase_id := "K1",
     kinexus_score := .int 950, kinexus_score_v2 := .int (-940) }]

/-- C8 witness: the idempotence theorem applied to the concrete table. -/
theorem C8_witness :
    typecast_phos_df (some C8tbl) = .ok C8cast ∧
    typecast_phos_df (some C8cast) = .ok C8cast :=
  ⟨by decide, C8_theorem C8tbl C8cast (by decide)⟩

theorem noComma_replaceCommas (s : String) : noComma (replaceCommas s) = true := by
  show (s.data.map replChar).all (fun c => ! (c == ',')) = true
  rw [List.all_map]
  refine List.all_eq_true.mpr ?_
  intro c _
  simp [Function.comp, replChar_ne_comma]

/-- C9: in every table typecast_phos_df accepts and returns, no
kinase_name field contains a comma character. -/
theorem C9_theorem (tbl rs : List KinaseRecord)
    (h : typecast_phos_df (some tbl) = .ok rs) :
    ∀ b, b ∈ rs → noComma b.kinase_name = true := by
  intro b hb
  obtain ⟨a, _, ha⟩ := castRows_mem tbl rs h b hb
  rw [(typecastRecord_fields a b ha).2.2.2.2]
  exact noComma_replaceCommas _

/-- Concrete raw table for the C9 witness, with commas in the name. -/
def C9tbl : List KinaseRecord :=
  [{ substrate := "P2", aa := "T", site := .str "99", kinase_rank := 1,
     kinase_name := "A,B,C", kinase_id := "K2",
     kinexus_score := .str "5", kinexus_score_v2 := .str "6" }]

/-- The C9 witness table after the typecast pass. -/
def C9rs : List KinaseRecord :=
  [{ substrate := "P2", aa := "T", site := .int 99, kinase_rank := 1,
     kinase_name := "A;B;C", kinase_id := "K2",
     kinexus_score := .int 5, kinexus_score_v2 := .int 6 }]

/-- C9 witness: the comma-free invariant applied to the concrete table. -/
theorem C9_witness :
    typecast_phos_df (some C9tbl) = .ok C9rs ∧
    noComma ((C9rs.headD default).kinase_name) = true :=
  ⟨by decide, C9_theorem C9tbl C9rs (by decide) (C9rs.headD default) (by decide)⟩

/-- C10: typecast_phos_df is a frame for everything but site,
kinexus_score, kinexus_score_v2 and kinase_name: the row count and row
order are preserved and every row keeps its substrate, aa, kinase_rank and
kinase_id values. -/
theorem C10_theorem (tbl rs : List KinaseRecord)
    (h : typecast_phos_df (some tbl) = .ok rs) :
    rs.length = tbl.length ∧
    ∀ i, (rs.getD i default).substrate = (tbl.getD i default).substrate ∧
         (rs.getD i default).aa = (tbl.getD i default).aa ∧
         (rs.getD i default).kinase_rank = (tbl.getD i default).kinase_rank ∧
         (rs.getD i default).kinase_id = (tbl.getD i default).kinase_id :=
  castRows_frame tbl rs h

/-- Concrete two-row raw table for the C10 witness. -/
def C10tbl : List KinaseRecord :=
  [{ substrate := "P3", aa := "Y", site := .str "8", kinase_rank := 1,
     kinase_name := "N1", kinase_id := "K3",
     kinexus_score := .str "7", kinexus_score_v2 := .str "8" },
   { substrate := "P3", aa := "Y", site := .str "8", kinase_rank := 2,
     kinase_name := "N2", kinase_id := "K4",
     kinexus_score := .str "9", kinexus_score_v2 := .str "10" }]

/-- The C10 witness table after the typecast pass. -/
def C10rs : List KinaseRecord :=
  [{ substrate := "P3", aa := "Y", site := .int 8, kinase_rank := 1,
     kinase_name := "N1", kinase_id := "K3",
     kinexus_score := .int 7, kinexus_score_v2 := .int 8 },
   { substrate := "P3", aa := "Y", site := .int 8, kinase_rank := 2,
     kinase_name := "N2", kinase_id := "K4",
     kinexus_score := .int 9, kinexus_score_v2 := .int 10 }]

/-- C10 witness: the frame theorem applied to the concrete two-row table. -/
theorem C10_witness :
    typecast_phos_df (some C10tbl) = .ok C10rs ∧
    C10rs.length = C10tbl.length ∧
    (C10rs.getD 1 default).kinase_id = (C10tbl.getD 1 default).kinase_id :=
  ⟨by decide, (C10_theorem C10tbl C10rs (by decide)).1,
    ((C10_theorem C10tbl C10rs (by decide)).2 1).2.2.2⟩

end Phosphonet
